import Mathlib

/-!
Shallow embedding of the wallet-ledger and tournament-settlement core of the
gamersarena-network backend (FastAPI/SQLAlchemy), together with proofs of the
spec's testable properties.

Conventions of the embedding:
* Python integers become `Int`; token balances and amounts are `Int` so that
  the non-negativity invariants are meaningful statements rather than
  artifacts of the type.
* SQLAlchemy rows become Lean structures; in-place mutation of a row becomes
  functional record update, and the database session becomes an explicit `DB`
  value threaded through each operation.
* `db.query(...).first()` becomes first-match lookup in an association list;
  committing a mutated row becomes replacing it in the list.
* Floating point money fields (`amount_pkr`, `total_spent_pkr`) and wall-clock
  timestamps (`created_at`, `completed_at`, ...) are not modelled: no claim
  depends on them.  `datetime.utcnow()` inside `is_registration_open` is
  modelled as an explicit `now : Nat` parameter.
* String enum columns become closed inductive types.
-/

/-- Lifecycle status of a `Transaction` (models `TransactionStatus` in
`app/models/transaction.py`). -/
inductive TransactionStatus
  | pending
  | processing
  | completed
  | failed
  | cancelled
  | refunded
deriving Repr, DecidableEq

/-- Kind of a `Transaction` (models `TransactionType` in
`app/models/transaction.py`). -/
inductive TransactionType
  | purchase
  | tournament_entry
  | tournament_reward
  | transfer_out
  | transfer_in
  | refund
  | bonus
  | subscription
deriving Repr, DecidableEq

/-- Status of a tournament `Registration` (models `RegistrationStatus` in
`app/models/registration.py`). -/
inductive RegistrationStatus
  | pending
  | confirmed
  | cancelled
  | checked_in
  | no_show
  | disqualified
deriving Repr, DecidableEq

/-- Lifecycle status of a `Tournament` (models `TournamentStatus` in
`app/models/tournament.py`). -/
inductive TournamentStatus
  | draft
  | upcoming
  | registration_open
  | registration_closed
  | active
  | completed
  | cancelled
deriving Repr, DecidableEq

/-- A user wallet row (models `Wallet` in `app/models/wallet.py`).
`virtual_tokens` are the purchased tokens, `reward_tokens` the earned
tokens; the three counters are the integer lifetime statistics.  The
floating-point `total_spent_pkr` column is not modelled. -/
structure Wallet where
  virtual_tokens : Int
  reward_tokens : Int
  total_tokens_purchased : Int
  total_tokens_earned : Int
  total_tokens_spent : Int
deriving Repr, DecidableEq

/-- A freshly created wallet: every column defaults to 0
(`Wallet(user_id=...)`). -/
def Wallet.new : Wallet :=
  { virtual_tokens := 0
    reward_tokens := 0
    total_tokens_purchased := 0
    total_tokens_earned := 0
    total_tokens_spent := 0 }

/-- Models the `Wallet.total_balance` property: purchased plus earned. -/
def Wallet.total_balance (w : Wallet) : Int :=
  w.virtual_tokens + w.reward_tokens

/-- Models `Wallet.has_sufficient_balance`. -/
def Wallet.has_sufficient_balance (w : Wallet) (amount : Int) : Bool :=
  decide (amount ≤ w.total_balance)

/-- Models `Wallet.deduct_tokens`: returns `(success, updated wallet)`.
On insufficient total balance it returns `(false, w)` without touching the
wallet; otherwise it consumes the preferred class first, spilling the
remainder into the other class, and bumps `total_tokens_spent`. -/
def Wallet.deduct_tokens (w : Wallet) (amount : Int) (use_reward_first : Bool) :
    Bool × Wallet :=
  if ¬ w.has_sufficient_balance amount then
    (false, w)
  else
    let w' :=
      if use_reward_first then
        if amount ≤ w.reward_tokens then
          { w with reward_tokens := w.reward_tokens - amount }
        else
          let remaining := amount - w.reward_tokens
          { w with reward_tokens := 0,
                   virtual_tokens := w.virtual_tokens - remaining }
      else
        if amount ≤ w.virtual_tokens then
          { w with virtual_tokens := w.virtual_tokens - amount }
        else
          let remaining := amount - w.virtual_tokens
          { w with virtual_tokens := 0,
                   reward_tokens := w.reward_tokens - remaining }
    (true, { w' with total_tokens_spent := w'.total_tokens_spent + amount })

/-- Models `Wallet.add_virtual_tokens` (the PKR statistic is not modelled). -/
def Wallet.add_virtual_tokens (w : Wallet) (amount : Int) : Wallet :=
  { w with virtual_tokens := w.virtual_tokens + amount,
           total_tokens_purchased := w.total_tokens_purchased + amount }

/-- Models `Wallet.add_reward_tokens`. -/
def Wallet.add_reward_tokens (w : Wallet) (amount : Int) : Wallet :=
  { w with reward_tokens := w.reward_tokens + amount,
           total_tokens_earned := w.total_tokens_earned + amount }

/-- A transaction row (models `Transaction` in `app/models/transaction.py`).
Only the columns the ledger logic reads or writes are modelled; text columns
`description`/`extra_data`, money columns and timestamps are omitted.
`balance_before`/`balance_after` are nullable in the schema, hence
`Option Int` here. -/
structure Transaction where
  user_id : Nat
  type : TransactionType
  status : TransactionStatus
  token_amount : Int
  token_type : String
  payment_reference : Option String
  tournament_id : Option Nat
  recipient_user_id : Option Nat
  sender_user_id : Option Nat
  balance_before : Option Int
  balance_after : Option Int
  notes : Option String
deriving Repr, DecidableEq

/-- Models `Transaction.mark_completed` (the `completed_at` timestamp is not
modelled). -/
def Transaction.mark_completed (t : Transaction) : Transaction :=
  { t with status := TransactionStatus.completed }

/-- A registration row (models `Registration` in
`app/models/registration.py`); game-detail and check-in columns that no claim
touches are omitted. -/
structure Registration where
  user_id : Nat
  tournament_id : Nat
  status : RegistrationStatus
  tokens_paid : Int
  transaction_id : Option Nat
  position : Option Int
  reward_earned : Int
  reward_transaction_id : Option Nat
deriving Repr, DecidableEq

/-- Models `Registration.set_result`. -/
def Registration.set_result (r : Registration) (position : Int) (reward : Int) :
    Registration :=
  { r with position := some position, reward_earned := reward }

/-- A tournament row (models `Tournament` in `app/models/tournament.py`);
identity/media/room columns are omitted, the registration window is kept as
optional abstract instants. -/
structure Tournament where
  entry_fee : Int
  first_place_reward : Int
  second_place_reward : Int
  third_place_reward : Int
  fourth_place_reward : Int
  fifth_place_reward : Int
  max_participants : Int
  current_participants : Int
  registration_start : Option Nat
  registration_end : Option Nat
  status : TournamentStatus
deriving Repr, DecidableEq

/-- Models the `Tournament.is_registration_open` property; `now` stands for
`datetime.utcnow()`. -/
def Tournament.is_registration_open (t : Tournament) (now : Nat) : Bool :=
  if t.status ≠ TournamentStatus.registration_open then false
  else if (match t.registration_start with
           | some s => decide (now < s)
           | none => false) then false
  else if (match t.registration_end with
           | some e => decide (e < now)
           | none => false) then false
  else if t.max_participants ≤ t.current_participants then false
  else true

/-- The database session state threaded through every operation: users by id,
and the four row tables.  Wallets, transactions and tournaments are keyed
association lists (transaction keys model the generated primary keys that
callbacks and registrations refer to). -/
structure DB where
  users : List Nat
  wallets : List (Nat × Wallet)
  transactions : List (Nat × Transaction)
  registrations : List Registration
  tournaments : List (Nat × Tournament)
deriving Repr, DecidableEq

/-- First-match lookup in a keyed table, modelling
`db.query(...).filter(key).first()`. -/
def lookupRow {α : Type} (rows : List (Nat × α)) (key : Nat) : Option α :=
  (rows.find? (fun p => p.1 = key)).map Prod.snd

/-- Writing a mutated row back: every entry under `key` is replaced by the
new value (keys are unique in any state the operations build). -/
def setRow {α : Type} (rows : List (Nat × α)) (key : Nat) (v : α) :
    List (Nat × α) :=
  rows.map (fun p => if p.1 = key then (key, v) else p)

/-- Fresh primary key for a transaction insert. -/
def DB.freshTxId (db : DB) : Nat := db.transactions.length

namespace WalletService

/-- Models `WalletService.get_or_create_wallet`, as a function of the wallet
table: returns the wallet found for the user, or a fresh zero wallet inserted
at the end of the table. -/
def get_or_create_wallet (wallets : List (Nat × Wallet)) (user_id : Nat) :
    Wallet × List (Nat × Wallet) :=
  match lookupRow wallets user_id with
  | some w => (w, wallets)
  | none => (Wallet.new, wallets ++ [(user_id, Wallet.new)])

/-- Models `WalletService.add_tokens`: credits the chosen token class of the
user's (possibly freshly created) wallet and appends one completed
transaction capturing the before/after total balance.  Returns the updated
wallet, the new transaction's key and row, and the updated state. -/
def add_tokens (db : DB) (user_id : Nat) (amount : Int) (token_type : String)
    (transaction_type : TransactionType) : (Wallet × Nat × Transaction) × DB :=
  let found := get_or_create_wallet db.wallets user_id
  let wallet := found.1
  let balance_before := wallet.total_balance
  let wallet' :=
    if token_type = "virtual" then wallet.add_virtual_tokens amount
    else wallet.add_reward_tokens amount
  let tx : Transaction :=
    Transaction.mark_completed
      { user_id := user_id
        type := transaction_type
        status := TransactionStatus.completed
        token_amount := amount
        token_type := token_type
        payment_reference := none
        tournament_id := none
        recipient_user_id := none
        sender_user_id := none
        balance_before := some balance_before
        balance_after := some wallet'.total_balance
        notes := none }
  ((wallet', db.freshTxId, tx),
   { db with wallets := setRow found.2 user_id wallet',
             transactions := db.transactions ++ [(db.freshTxId, tx)] })

/-- Models `WalletService.deduct_tokens`: fails (returning the state
untouched and no transaction) when the wallet is missing or the total balance
is insufficient; otherwise debits purchased-first and appends one completed
transaction.  The transaction's `token_type` keeps the column default
`"virtual"`, exactly as in the source. -/
def deduct_tokens (db : DB) (user_id : Nat) (amount : Int)
    (transaction_type : TransactionType) (tournament_id : Option Nat) :
    (Bool × Option (Nat × Transaction)) × DB :=
  match lookupRow db.wallets user_id with
  | none => ((false, none), db)
  | some wallet =>
    if ¬ wallet.has_sufficient_balance amount then
      ((false, none), db)
    else
      let balance_before := wallet.total_balance
      let wallet' := (wallet.deduct_tokens amount false).2
      let tx : Transaction :=
        Transaction.mark_completed
          { user_id := user_id
            type := transaction_type
            status := TransactionStatus.completed
            token_amount := amount
            token_type := "virtual"
            payment_reference := none
            tournament_id := tournament_id
            recipient_user_id := none
            sender_user_id := none
            balance_before := some balance_before
            balance_after := some wallet'.total_balance
            notes := none }
      ((true, some (db.freshTxId, tx)),
       { db with wallets := setRow db.wallets user_id wallet',
                 transactions := db.transactions ++ [(db.freshTxId, tx)] })

end WalletService

/-- Errors the `/api/wallets/transfer` endpoint can raise, in the order the
handler checks them. -/
inductive TransferError
  | recipient_not_found
  | self_transfer
  | wallet_not_found
  | transfer_restricted
  | insufficient_balance
deriving Repr, DecidableEq

/-- Outcome of the transfer endpoint.  An error carries the (unchanged)
session state: the handler raises before any mutation, so nothing is
committed. -/
inductive TransferResult
  | error (e : TransferError) (db : DB)
  | ok (db : DB) (sender_tx recipient_tx : Transaction)
deriving Repr, DecidableEq

/-- State carried by a transfer outcome. -/
def TransferResult.state : TransferResult → DB
  | .error _ db => db
  | .ok db _ _ => db

/-- Whether a transfer outcome is a success. -/
def TransferResult.isOk : TransferResult → Bool
  | .error _ _ => false
  | .ok _ _ _ => true

namespace WalletsRouter

/-- Models the `transfer_tokens` handler of `app/routers/wallets.py`
(the live transfer path).  Recipient resolution by email becomes membership
of the recipient id in `db.users`.  Checks happen in the handler's order:
recipient exists, not a self transfer, sender wallet exists, reward class
only, sufficient earned balance; then both wallets are updated and one
transaction per side is appended. -/
def transfer_tokens (db : DB) (current_user : Nat) (recipient : Nat)
    (amount : Int) (token_type : String) : TransferResult :=
  if ¬ db.users.contains recipient then
    .error TransferError.recipient_not_found db
  else if recipient = current_user then
    .error TransferError.self_transfer db
  else
    match lookupRow db.wallets current_user with
    | none => .error TransferError.wallet_not_found db
    | some sender_wallet =>
      if token_type ≠ "reward" then
        .error TransferError.transfer_restricted db
      else if sender_wallet.reward_tokens < amount then
        .error TransferError.insufficient_balance db
      else
        let found :=
          match lookupRow db.wallets recipient with
          | some w => (w, db.wallets)
          | none => (Wallet.new, db.wallets ++ [(recipient, Wallet.new)])
        let recipient_wallet := found.1
        let sender_balance_before := sender_wallet.total_balance
        let recipient_balance_before := recipient_wallet.total_balance
        let sender_wallet' :=
          { sender_wallet with
              reward_tokens := sender_wallet.reward_tokens - amount }
        let recipient_wallet' :=
          { recipient_wallet with
              reward_tokens := recipient_wallet.reward_tokens + amount }
        let sender_transaction : Transaction :=
          Transaction.mark_completed
            { user_id := current_user
              type := TransactionType.transfer_out
              status := TransactionStatus.completed
              token_amount := amount
              token_type := "reward"
              payment_reference := none
              tournament_id := none
              recipient_user_id := some recipient
              sender_user_id := none
              balance_before := some sender_balance_before
              balance_after := some sender_wallet'.total_balance
              notes := none }
        let recipient_transaction : Transaction :=
          Transaction.mark_completed
            { user_id := recipient
              type := TransactionType.transfer_in
              status := TransactionStatus.completed
              token_amount := amount
              token_type := "reward"
              payment_reference := none
              tournament_id := none
              recipient_user_id := none
              sender_user_id := some current_user
              balance_before := some recipient_balance_before
              balance_after := some recipient_wallet'.total_balance
              notes := none }
        let wallets' :=
          setRow (setRow found.2 current_user sender_wallet')
            recipient recipient_wallet'
        .ok
          { db with wallets := wallets',
                    transactions := db.transactions ++
                      [(db.freshTxId, sender_transaction),
                       (db.freshTxId + 1, recipient_transaction)] }
          sender_transaction recipient_transaction

end WalletsRouter

/-- Replaces the first registration satisfying the predicate by its image
under `f`; models mutating the row returned by `.first()`. -/
def updateFirstReg (p : Registration → Bool) (f : Registration → Registration) :
    List Registration → List Registration
  | [] => []
  | r :: rs => if p r then f r :: rs else r :: updateFirstReg p f rs

/-- Outcome of `TournamentService.register_user`: the Python function returns
`(success, message, registration)`; an error carries the session state the
function leaves behind. -/
inductive RegisterResult
  | error (message : String) (db : DB)
  | ok (db : DB) (registration : Registration)
deriving Repr, DecidableEq

/-- State carried by a registration outcome. -/
def RegisterResult.state : RegisterResult → DB
  | .error _ db => db
  | .ok db _ => db

/-- Whether a registration outcome is a success. -/
def RegisterResult.isOk : RegisterResult → Bool
  | .error _ _ => false
  | .ok _ _ => true

/-- One entry of the `results` argument of
`TournamentService.distribute_rewards` (a Python dict with keys `user_id`,
`position`, `reward`). -/
structure RewardEntry where
  user_id : Nat
  position : Int
  reward : Int
deriving Repr, DecidableEq

namespace TournamentService

/-- Predicate selecting the registration rows of one user in one tournament
(the filter used by both `register_user` and `distribute_rewards`). -/
def regOf (user_id tournament_id : Nat) (r : Registration) : Bool :=
  decide (r.user_id = user_id) && decide (r.tournament_id = tournament_id)

/-- Models `TournamentService.register_user`: resolve the tournament, check
the registration window, reject duplicates, debit the entry fee
(purchased-first via `WalletService.deduct_tokens`), then insert a confirmed
registration linked to the entry transaction and bump the participant
counter. -/
def register_user (db : DB) (now : Nat) (user_id : Nat) (tournament_id : Nat) :
    RegisterResult :=
  match lookupRow db.tournaments tournament_id with
  | none => .error "Tournament not found" db
  | some tournament =>
    if ¬ tournament.is_registration_open now then
      .error "Registration is not open" db
    else
      match db.registrations.find?
          (fun r => regOf user_id tournament_id r &&
            decide (r.status ≠ RegistrationStatus.cancelled)) with
      | some _ => .error "Already registered" db
      | none =>
        match WalletService.deduct_tokens db user_id tournament.entry_fee
            TransactionType.tournament_entry (some tournament_id) with
        | ((true, some tx), db1) =>
          let registration : Registration :=
            { user_id := user_id
              tournament_id := tournament_id
              status := RegistrationStatus.confirmed
              tokens_paid := tournament.entry_fee
              transaction_id := some tx.1
              position := none
              reward_earned := 0
              reward_transaction_id := none }
          .ok
            { db1 with
                registrations := db1.registrations ++ [registration],
                tournaments := setRow db1.tournaments tournament_id
                  { tournament with
                      current_participants :=
                        tournament.current_participants + 1 } }
            registration
        | (_, db1) => .error "Insufficient token balance" db1

/-- Body of the `for result in results` loop of
`TournamentService.distribute_rewards`: skip entries without a registration
row; otherwise record the result on the registration and, for a positive
reward, credit the earned class through `WalletService.add_tokens` and link
the reward transaction. -/
def distributeStep (tournament_id : Nat) (db : DB) (result : RewardEntry) :
    DB :=
  match db.registrations.find? (regOf result.user_id tournament_id) with
  | none => db
  | some _ =>
    if 0 < result.reward then
      let credited := WalletService.add_tokens db result.user_id result.reward
        "reward" TransactionType.tournament_reward
      let txId := credited.1.2.1
      { credited.2 with
          registrations := updateFirstReg (regOf result.user_id tournament_id)
            (fun r =>
              { r.set_result result.position result.reward with
                  reward_transaction_id := some txId })
            credited.2.registrations }
    else
      { db with
          registrations := updateFirstReg (regOf result.user_id tournament_id)
            (fun r => r.set_result result.position result.reward)
            db.registrations }

/-- Models `TournamentService.distribute_rewards`: process every entry of
`results` with `distributeStep`, then unconditionally set the tournament's
status to `completed`.  (The source mutates the tournament row fetched at
the start; the loop never touches tournament rows, so writing the fetched
row back with the new status is the same state.) -/
def distribute_rewards (db : DB) (tournament_id : Nat)
    (results : List RewardEntry) : Bool × DB :=
  match lookupRow db.tournaments tournament_id with
  | none => (false, db)
  | some tournament =>
    let db1 := results.foldl (distributeStep tournament_id) db
    (true,
     { db1 with
         tournaments := setRow db1.tournaments tournament_id
           { tournament with status := TournamentStatus.completed } })

end TournamentService

namespace PaymentsRouter

/-- Models the gateway-success path of `initiate_payment` in
`app/routers/payments.py`.  Bundle lookup and the outbound gateway call are
abstracted: `bundle_tokens` stands for `bundle.total_tokens` and the
initiation is assumed to succeed, after which the transaction sits in
`processing` status.  `balance_before` is the wallet's total balance at
initiation time (`0` if the user has no wallet); `balance_after` is left
null until the callback.  Returns the new transaction's key. -/
def initiate_payment (db : DB) (user_id : Nat) (bundle_tokens : Int) :
    Nat × DB :=
  let balance_before : Int :=
    match lookupRow db.wallets user_id with
    | some w => w.total_balance
    | none => 0
  let tx : Transaction :=
    { user_id := user_id
      type := TransactionType.purchase
      status := TransactionStatus.processing
      token_amount := bundle_tokens
      token_type := "virtual"
      payment_reference := none
      tournament_id := none
      recipient_user_id := none
      sender_user_id := none
      balance_before := some balance_before
      balance_after := none
      notes := none }
  (db.freshTxId, { db with transactions := db.transactions ++ [(db.freshTxId, tx)] })

/-- Models the `easypaisa_callback` webhook handler: look the transaction up
by `orderId`; on the gateway success code `"0000"` mark it completed, credit
the purchase amount to the user's wallet (if the wallet exists) and stamp
`balance_after`; on any other code mark it failed.  The handler never
inspects the transaction's current status before doing so. -/
def easypaisa_callback (db : DB) (orderId : Nat) (transactionStatus : String)
    (transactionId : String) : String × DB :=
  match lookupRow db.transactions orderId with
  | none => ("error", db)
  | some transaction =>
    if transactionStatus = "0000" then
      let transaction1 :=
        { transaction with status := TransactionStatus.completed,
                           payment_reference := some transactionId }
      match lookupRow db.wallets transaction.user_id with
      | some wallet =>
        let wallet' := wallet.add_virtual_tokens transaction.token_amount
        let transaction2 :=
          { transaction1 with balance_after := some wallet'.total_balance }
        ("success",
         { db with wallets := setRow db.wallets transaction.user_id wallet',
                   transactions := setRow db.transactions orderId transaction2 })
      | none =>
        ("success",
         { db with transactions := setRow db.transactions orderId transaction1 })
    else
      let transaction1 :=
        { transaction with status := TransactionStatus.failed,
                           notes := some ("Easypaisa status: " ++ transactionStatus) }
      ("failed",
       { db with transactions := setRow db.transactions orderId transaction1 })

/-- Models the `jazzcash_callback` webhook handler; identical shape to the
Easypaisa one with success code `"000"`, and `payment_reference` set to the
order reference itself (`pp_TxnRefNo`). -/
def jazzcash_callback (db : DB) (pp_TxnRefNo : Nat) (pp_ResponseCode : String)
    (pp_ResponseMessage : String) : String × DB :=
  match lookupRow db.transactions pp_TxnRefNo with
  | none => ("error", db)
  | some transaction =>
    if pp_ResponseCode = "000" then
      let transaction1 :=
        { transaction with status := TransactionStatus.completed,
                           payment_reference := some (toString pp_TxnRefNo) }
      match lookupRow db.wallets transaction.user_id with
      | some wallet =>
        let wallet' := wallet.add_virtual_tokens transaction.token_amount
        let transaction2 :=
          { transaction1 with balance_after := some wallet'.total_balance }
        ("success",
         { db with wallets := setRow db.wallets transaction.user_id wallet',
                   transactions := setRow db.transactions pp_TxnRefNo transaction2 })
      | none =>
        ("success",
         { db with transactions := setRow db.transactions pp_TxnRefNo transaction1 })
    else
      let transaction1 :=
        { transaction with status := TransactionStatus.failed,
                           notes := some ("JazzCash: " ++ pp_ResponseMessage) }
      ("failed",
       { db with transactions := setRow db.transactions pp_TxnRefNo transaction1 })

end PaymentsRouter

/-- The placement keys `"1st"`..`"5th"` of the `winners` dict accepted by the
admin `complete_tournament` endpoint. -/
inductive Place
  | first_place
  | second_place
  | third_place
  | fourth_place
  | fifth_place
deriving Repr, DecidableEq

/-- The configured reward the endpoint reads for a placement
(`tournament.first_place_reward`, ...). -/
def placeReward (t : Tournament) : Place → Int
  | .first_place => t.first_place_reward
  | .second_place => t.second_place_reward
  | .third_place => t.third_place_reward
  | .fourth_place => t.fourth_place_reward
  | .fifth_place => t.fifth_place_reward

/-- Models `int(place[0])`: the numeric position encoded by the key. -/
def placePosition : Place → Int
  | .first_place => 1
  | .second_place => 2
  | .third_place => 3
  | .fourth_place => 4
  | .fifth_place => 5

namespace AdminRouter

/-- Body of the winners loop of the admin `complete_tournament` endpoint in
`app/routers/admin.py`: for a placement with a positive configured reward and
an existing wallet, credit the earned class directly on the wallet row,
update the matching registration's position and reward (if one exists), and
append a completed reward transaction.  Note the transaction is created with
neither `balance_before` nor `balance_after`. -/
def completeStep (tournament_id : Nat) (rewards : Place → Int) (db : DB)
    (winner : Place × Nat) : DB :=
  if 0 < rewards winner.1 then
    match lookupRow db.wallets winner.2 with
    | none => db
    | some wallet =>
      let wallet' := wallet.add_reward_tokens (rewards winner.1)
      let tx : Transaction :=
        Transaction.mark_completed
          { user_id := winner.2
            type := TransactionType.tournament_reward
            status := TransactionStatus.completed
            token_amount := rewards winner.1
            token_type := "reward"
            payment_reference := none
            tournament_id := some tournament_id
            recipient_user_id := none
            sender_user_id := none
            balance_before := none
            balance_after := none
            notes := none }
      { db with
          wallets := setRow db.wallets winner.2 wallet',
          registrations := updateFirstReg
            (fun r => decide (r.tournament_id = tournament_id) &&
              decide (r.user_id = winner.2))
            (fun r => { r with position := some (placePosition winner.1),
                               reward_earned := rewards winner.1 })
            db.registrations,
          transactions := db.transactions ++ [(db.freshTxId, tx)] }
  else db

/-- Models the admin `complete_tournament` endpoint: resolve the tournament
(404 leaves the state untouched), process each provided winner with
`completeStep`, and set the tournament status to `completed`.  (The source
assigns the status before the loop on the fetched row; the loop never reads
or writes tournament rows, so writing the row back afterwards yields the same
state.) -/
def complete_tournament (db : DB) (tournament_id : Nat)
    (winners : List (Place × Nat)) : Bool × DB :=
  match lookupRow db.tournaments tournament_id with
  | none => (false, db)
  | some tournament =>
    let db1 := winners.foldl (completeStep tournament_id (placeReward tournament)) db
    (true,
     { db1 with
         tournaments := setRow db1.tournaments tournament_id
           { tournament with status := TournamentStatus.completed } })

end AdminRouter

/-- Sample wallet holding `v` purchased and `r` earned tokens, with matching
lifetime counters; used by the concrete witness states. -/
def mkWallet (v r : Int) : Wallet :=
  { virtual_tokens := v, reward_tokens := r, total_tokens_purchased := v,
    total_tokens_earned := r, total_tokens_spent := 0 }

/-- The signed token amount of a transaction, as the spec reads it: positive
for the credit kinds, negative for the debit kinds. -/
def signed_token_amount (t : Transaction) : Int :=
  match t.type with
  | TransactionType.purchase => t.token_amount
  | TransactionType.tournament_reward => t.token_amount
  | TransactionType.transfer_in => t.token_amount
  | TransactionType.refund => t.token_amount
  | TransactionType.bonus => t.token_amount
  | TransactionType.tournament_entry => -t.token_amount
  | TransactionType.transfer_out => -t.token_amount
  | TransactionType.subscription => -t.token_amount

/-- `balance_after − balance_before` when both snapshots are recorded, `none`
otherwise. -/
def tx_balance_delta (t : Transaction) : Option Int :=
  match t.balance_before, t.balance_after with
  | some b, some a => some (a - b)
  | _, _ => none

/-- The spec's ledger invariant for one transaction: if it is completed, its
recorded balance delta equals its signed token amount. -/
def tx_snapshot_ok (t : Transaction) : Prop :=
  t.status = TransactionStatus.completed →
    tx_balance_delta t = some (signed_token_amount t)

instance (t : Transaction) : Decidable (tx_snapshot_ok t) := by
  unfold tx_snapshot_ok
  infer_instance

/-- The balance-changing operations quantified over by the non-negativity
claim: credit via `WalletService.add_tokens`, debit via
`WalletService.deduct_tokens` (purchased-first, as every caller uses it),
transfer via the transfer endpoint. -/
inductive WalletOp
  | credit (user_id : Nat) (amount : Int) (token_type : String)
  | debit (user_id : Nat) (amount : Int)
  | transfer (sender recipient : Nat) (amount : Int) (token_type : String)
deriving Repr, DecidableEq

/-- Applying one operation to the session state. -/
def applyOp (db : DB) : WalletOp → DB
  | WalletOp.credit u a ty =>
      (WalletService.add_tokens db u a ty TransactionType.purchase).2
  | WalletOp.debit u a =>
      (WalletService.deduct_tokens db u a TransactionType.tournament_entry
        none).2
  | WalletOp.transfer s r a ty =>
      (WalletsRouter.transfer_tokens db s r a ty).state

/-- The operation carries a positive token amount. -/
def WalletOp.positive : WalletOp → Prop
  | WalletOp.credit _ a _ => 0 < a
  | WalletOp.debit _ a => 0 < a
  | WalletOp.transfer _ _ a _ => 0 < a

instance (op : WalletOp) : Decidable op.positive := by
  cases op <;> unfold WalletOp.positive <;> infer_instance

/-- Component-wise non-negativity of one wallet. -/
def walletNonneg (w : Wallet) : Prop :=
  0 ≤ w.virtual_tokens ∧ 0 ≤ w.reward_tokens

/-- Every wallet row of the state has non-negative components. -/
def dbWalletsNonneg (db : DB) : Prop :=
  ∀ p ∈ db.wallets, walletNonneg p.2

instance (w : Wallet) : Decidable (walletNonneg w) := by
  unfold walletNonneg
  infer_instance

instance (db : DB) : Decidable (dbWalletsNonneg db) := by
  unfold dbWalletsNonneg
  exact List.decidableBAll _ _

section TableLemmas

variable {α : Type}

/-- Looking a key up after writing it yields the written value, provided the
key was present. -/
theorem lookupRow_setRow_self (rows : List (Nat × α)) (k : Nat) (v : α)
    (h : (lookupRow rows k).isSome) :
    lookupRow (setRow rows k v) k = some v := by
  induction rows with
  | nil => simp [lookupRow] at h
  | cons p rest ih =>
    by_cases hk : p.1 = k
    · simp [lookupRow, setRow, hk]
    · simp only [lookupRow, setRow, List.map_cons, List.find?_cons] at h ih ⊢
      rw [if_neg hk]
      have hd : (decide (p.1 = k)) = false := by simp [hk]
      rw [hd] at h ⊢
      exact ih h

/-- Writing one key leaves lookups of other keys unchanged. -/
theorem lookupRow_setRow_other (rows : List (Nat × α)) (k k' : Nat) (v : α)
    (h : k' ≠ k) : lookupRow (setRow rows k v) k' = lookupRow rows k' := by
  induction rows with
  | nil => simp [lookupRow, setRow]
  | cons p rest ih =>
    simp only [lookupRow, setRow, List.map_cons, List.find?_cons] at ih ⊢
    by_cases hk : p.1 = k
    · rw [if_pos hk]
      have h1 : (decide (k = k')) = false := by simp [Ne.symm h]
      have h2 : (decide (p.1 = k')) = false := by simp [hk, Ne.symm h]
      rw [h1, h2]
      exact ih
    · rw [if_neg hk]
      by_cases hp : p.1 = k'
      · simp [hp]
      · have h2 : (decide (p.1 = k')) = false := by simp [hp]
        rw [h2]
        exact ih

/-- Appending a fresh row does not change a lookup that already succeeds. -/
theorem lookupRow_append_found (rows : List (Nat × α)) (k k' : Nat) (v : α)
    (h : (lookupRow rows k').isSome) :
    lookupRow (rows ++ [(k, v)]) k' = lookupRow rows k' := by
  induction rows with
  | nil => simp [lookupRow] at h
  | cons p rest ih =>
    simp only [lookupRow, List.cons_append, List.find?_cons] at h ih ⊢
    by_cases hp : p.1 = k'
    · simp [hp]
    · have h2 : (decide (p.1 = k')) = false := by simp [hp]
      rw [h2] at h ⊢
      exact ih h

/-- Appending a row under an absent key makes its lookup succeed. -/
theorem lookupRow_append_new (rows : List (Nat × α)) (k : Nat) (v : α)
    (h : lookupRow rows k = none) :
    lookupRow (rows ++ [(k, v)]) k = some v := by
  induction rows with
  | nil => simp [lookupRow]
  | cons p rest ih =>
    simp only [lookupRow, List.cons_append, List.find?_cons] at h ih ⊢
    by_cases hp : p.1 = k
    · simp [hp] at h
    · have h2 : (decide (p.1 = k)) = false := by simp [hp]
      rw [h2] at h ⊢
      exact ih h

end TableLemmas

namespace WalletService

/-- Equation for `deduct_tokens` on the failure path: an insufficient balance
returns `(false, none)` and the state untouched. -/
theorem deduct_tokens_fail (db : DB) (user_id : Nat) (amount : Int)
    (tt : TransactionType) (tid : Option Nat) (w : Wallet)
    (hw : lookupRow db.wallets user_id = some w)
    (hins : ¬ amount ≤ w.total_balance) :
    deduct_tokens db user_id amount tt tid = ((false, none), db) := by
  have hs : w.has_sufficient_balance amount = false := by
    simp [Wallet.has_sufficient_balance, hins]
  simp [deduct_tokens, hw, hs]

/-- Equation for `deduct_tokens` on the success path. -/
theorem deduct_tokens_ok (db : DB) (user_id : Nat) (amount : Int)
    (tt : TransactionType) (tid : Option Nat) (w : Wallet)
    (hw : lookupRow db.wallets user_id = some w)
    (hsuf : amount ≤ w.total_balance) :
    deduct_tokens db user_id amount tt tid =
      ((true, some (db.freshTxId,
        Transaction.mark_completed
          { user_id := user_id
            type := tt
            status := TransactionStatus.completed
            token_amount := amount
            token_type := "virtual"
            payment_reference := none
            tournament_id := tid
            recipient_user_id := none
            sender_user_id := none
            balance_before := some w.total_balance
            balance_after := some (w.deduct_tokens amount false).2.total_balance
            notes := none })),
       { db with
           wallets := setRow db.wallets user_id (w.deduct_tokens amount false).2,
           transactions := db.transactions ++ [(db.freshTxId,
             Transaction.mark_completed
               { user_id := user_id
                 type := tt
                 status := TransactionStatus.completed
                 token_amount := amount
                 token_type := "virtual"
                 payment_reference := none
                 tournament_id := tid
                 recipient_user_id := none
                 sender_user_id := none
                 balance_before := some w.total_balance
                 balance_after := some (w.deduct_tokens amount false).2.total_balance
                 notes := none })] }) := by
  have hs : w.has_sufficient_balance amount = true := by
    simp [Wallet.has_sufficient_balance, hsuf]
  simp [deduct_tokens, hw, hs]

end WalletService

/-- C7: given the user's wallet, `WalletService.deduct_tokens` fails exactly
when `purchased + earned < amount`, and on failure it returns the session
state untouched with no transaction produced. -/
theorem C7_debit_fails_iff_insufficient (db : DB) (user_id : Nat)
    (amount : Int) (tt : TransactionType) (tid : Option Nat) (w : Wallet)
    (hw : lookupRow db.wallets user_id = some w) :
    ((WalletService.deduct_tokens db user_id amount tt tid).1.1 = false ↔
      w.total_balance < amount) ∧
    (w.total_balance < amount →
      WalletService.deduct_tokens db user_id amount tt tid =
        ((false, none), db)) := by
  by_cases h : amount ≤ w.total_balance
  · refine ⟨?_, fun hlt => absurd hlt (not_lt.mpr h)⟩
    rw [WalletService.deduct_tokens_ok db user_id amount tt tid w hw h]
    simpa using not_lt.mpr h
  · have hfail := WalletService.deduct_tokens_fail db user_id amount tt tid w hw h
    refine ⟨?_, fun _ => hfail⟩
    rw [hfail]
    simpa using not_le.mp h

/-- Witness for C7: a wallet holding 5 tokens total cannot cover a debit of
10; the operation reports failure and leaves the state untouched. -/
theorem C7_debit_fails_iff_insufficient_witness :
    ((WalletService.deduct_tokens ⟨[1], [(1, mkWallet 5 0)], [], [], []⟩
        1 10 TransactionType.tournament_entry none).1.1 = false ↔
      (mkWallet 5 0).total_balance < 10) ∧
    ((mkWallet 5 0).total_balance < 10 →
      WalletService.deduct_tokens ⟨[1], [(1, mkWallet 5 0)], [], [], []⟩
        1 10 TransactionType.tournament_entry none =
        ((false, none), ⟨[1], [(1, mkWallet 5 0)], [], [], []⟩)) :=
  C7_debit_fails_iff_insufficient ⟨[1], [(1, mkWallet 5 0)], [], [], []⟩
    1 10 TransactionType.tournament_entry none (mkWallet 5 0) (by decide)

/-- C4: on a wallet with non-negative components whose total covers a
positive `amount`, the purchased-first debit succeeds, consumes the purchased
(`virtual`) balance fully before touching the earned (`reward`) balance
(`virtual' = max (virtual - amount) 0`, `reward' = reward - max (amount -
virtual) 0`), reduces the total balance by exactly `amount`, and leaves both
components non-negative; in particular purchased=30, earned=20, amount=40
yields purchased=0, earned=10. -/
theorem C4_purchased_first_debit (w : Wallet) (amount : Int)
    (_hpos : 0 < amount) (_hv : 0 ≤ w.virtual_tokens) (hr : 0 ≤ w.reward_tokens)
    (hle : amount ≤ w.virtual_tokens + w.reward_tokens) :
    (w.deduct_tokens amount false).1 = true ∧
    (w.deduct_tokens amount false).2.virtual_tokens =
      max (w.virtual_tokens - amount) 0 ∧
    (w.deduct_tokens amount false).2.reward_tokens =
      w.reward_tokens - max (amount - w.virtual_tokens) 0 ∧
    (w.deduct_tokens amount false).2.total_balance = w.total_balance - amount ∧
    0 ≤ (w.deduct_tokens amount false).2.virtual_tokens ∧
    0 ≤ (w.deduct_tokens amount false).2.reward_tokens ∧
    Wallet.deduct_tokens
      { virtual_tokens := 30, reward_tokens := 20, total_tokens_purchased := 30,
        total_tokens_earned := 20, total_tokens_spent := 0 } 40 false =
      (true,
       { virtual_tokens := 0, reward_tokens := 10, total_tokens_purchased := 30,
         total_tokens_earned := 20, total_tokens_spent := 40 }) := by
  have hs : w.has_sufficient_balance amount = true := by
    simp only [Wallet.has_sufficient_balance, Wallet.total_balance,
      decide_eq_true_eq]
    omega
  simp only [Wallet.deduct_tokens, hs, Bool.not_true, Bool.false_eq_true,
    if_false, Wallet.total_balance]
  rcases le_or_lt amount w.virtual_tokens with h | h
  · simp only [if_pos h]
    refine ⟨rfl, ?_, ?_, ?_, ?_, ?_, by decide⟩ <;> simp <;> omega
  · simp only [if_neg (not_le.mpr h)]
    refine ⟨rfl, ?_, ?_, ?_, ?_, ?_, by decide⟩ <;> simp <;> omega

/-- Witness for C4 at the spec's concrete instance. -/
theorem C4_purchased_first_debit_witness :
    (Wallet.deduct_tokens
        { virtual_tokens := 30, reward_tokens := 20,
          total_tokens_purchased := 30, total_tokens_earned := 20,
          total_tokens_spent := 0 } 40 false).1 = true ∧
    (Wallet.deduct_tokens
        { virtual_tokens := 30, reward_tokens := 20,
          total_tokens_purchased := 30, total_tokens_earned := 20,
          total_tokens_spent := 0 } 40 false).2.virtual_tokens =
      max ((30 : Int) - 40) 0 ∧
    (Wallet.deduct_tokens
        { virtual_tokens := 30, reward_tokens := 20,
          total_tokens_purchased := 30, total_tokens_earned := 20,
          total_tokens_spent := 0 } 40 false).2.reward_tokens =
      20 - max ((40 : Int) - 30) 0 ∧
    (Wallet.deduct_tokens
        { virtual_tokens := 30, reward_tokens := 20,
          total_tokens_purchased := 30, total_tokens_earned := 20,
          total_tokens_spent := 0 } 40 false).2.total_balance =
      Wallet.total_balance
        { virtual_tokens := 30, reward_tokens := 20,
          total_tokens_purchased := 30, total_tokens_earned := 20,
          total_tokens_spent := 0 } - 40 ∧
    0 ≤ (Wallet.deduct_tokens
        { virtual_tokens := 30, reward_tokens := 20,
          total_tokens_purchased := 30, total_tokens_earned := 20,
          total_tokens_spent := 0 } 40 false).2.virtual_tokens ∧
    0 ≤ (Wallet.deduct_tokens
        { virtual_tokens := 30, reward_tokens := 20,
          total_tokens_purchased := 30, total_tokens_earned := 20,
          total_tokens_spent := 0 } 40 false).2.reward_tokens ∧
    Wallet.deduct_tokens
      { virtual_tokens := 30, reward_tokens := 20, total_tokens_purchased := 30,
        total_tokens_earned := 20, total_tokens_spent := 0 } 40 false =
      (true,
       { virtual_tokens := 0, reward_tokens := 10, total_tokens_purchased := 30,
         total_tokens_earned := 20, total_tokens_spent := 40 }) :=
  C4_purchased_first_debit
    { virtual_tokens := 30, reward_tokens := 20, total_tokens_purchased := 30,
      total_tokens_earned := 20, total_tokens_spent := 0 } 40
    (by decide) (by decide) (by decide) (by decide)

/-- C3: a registration attempt that reaches the entry-fee debit and fails it
(wallet balance below the fee) returns the insufficient-balance error with
the session state completely untouched: no registration row, no participant
increment, no wallet change, no transaction. -/
theorem C3_failed_registration_changes_nothing (db : DB)
    (now user_id tournament_id : Nat) (t : Tournament) (w : Wallet)
    (ht : lookupRow db.tournaments tournament_id = some t)
    (hopen : t.is_registration_open now = true)
    (hnone : db.registrations.find?
      (fun r => TournamentService.regOf user_id tournament_id r &&
        decide (r.status ≠ RegistrationStatus.cancelled)) = none)
    (hw : lookupRow db.wallets user_id = some w)
    (hins : w.total_balance < t.entry_fee) :
    TournamentService.register_user db now user_id tournament_id =
      RegisterResult.error "Insufficient token balance" db := by
  simp only [TournamentService.register_user, ht, hopen, hnone,
    WalletService.deduct_tokens_fail db user_id t.entry_fee
      TransactionType.tournament_entry (some tournament_id) w hw
      (not_le.mpr hins)]
  simp

/-- Witness for C3: an open tournament with a 50-token fee and a wallet
holding only 5 tokens; the attempt fails and the state is unchanged. -/
theorem C3_failed_registration_changes_nothing_witness :
    TournamentService.register_user
      ⟨[1], [(1, mkWallet 5 0)], [], [],
        [(7, ⟨50, 200, 100, 50, 0, 0, 10, 0, none, none,
          TournamentStatus.registration_open⟩)]⟩ 5 1 7 =
      RegisterResult.error "Insufficient token balance"
        ⟨[1], [(1, mkWallet 5 0)], [], [],
          [(7, ⟨50, 200, 100, 50, 0, 0, 10, 0, none, none,
            TournamentStatus.registration_open⟩)]⟩ :=
  C3_failed_registration_changes_nothing
    ⟨[1], [(1, mkWallet 5 0)], [], [],
      [(7, ⟨50, 200, 100, 50, 0, 0, 10, 0, none, none,
        TournamentStatus.registration_open⟩)]⟩ 5 1 7
    ⟨50, 200, 100, 50, 0, 0, 10, 0, none, none,
      TournamentStatus.registration_open⟩
    (mkWallet 5 0) (by decide) (by decide) (by decide) (by decide) (by decide)

/-- C5: the transfer endpoint rejects a self transfer, a non-earned token
class, and an earned balance below the requested amount, each with the
matching error and, in every case, with the session state returned
untouched — no wallet is modified and no transaction rows are appended.
(The handler checks self transfer before the token class, so the class and
balance cases are stated for distinct sender and recipient.) -/
theorem C5_transfer_failure_modes (db : DB) (sender recipient : Nat)
    (amount : Int) (token_type : String)
    (hrec : db.users.contains recipient = true) :
    (recipient = sender →
      WalletsRouter.transfer_tokens db sender recipient amount token_type =
        TransferResult.error TransferError.self_transfer db) ∧
    (recipient ≠ sender → ∀ w, lookupRow db.wallets sender = some w →
      token_type ≠ "reward" →
      WalletsRouter.transfer_tokens db sender recipient amount token_type =
        TransferResult.error TransferError.transfer_restricted db) ∧
    (recipient ≠ sender → ∀ w, lookupRow db.wallets sender = some w →
      token_type = "reward" → w.reward_tokens < amount →
      WalletsRouter.transfer_tokens db sender recipient amount token_type =
        TransferResult.error TransferError.insufficient_balance db) := by
  have hmem : recipient ∈ db.users := by simpa using hrec
  refine ⟨fun hself => ?_, fun hne w hw hty => ?_, fun hne w hw hty hlt => ?_⟩
  · subst hself
    simp [WalletsRouter.transfer_tokens, hmem]
  · simp [WalletsRouter.transfer_tokens, hmem, hne, hw, hty]
  · subst hty
    simp [WalletsRouter.transfer_tokens, hmem, hne, hw, hlt]

/-- Witness for C5: with users 1 and 2 and wallet 1 holding 5 earned tokens,
a self transfer, a purchased-class transfer, and an oversized earned
transfer each fail with the expected error and the unchanged state. -/
theorem C5_transfer_failure_modes_witness :
    (WalletsRouter.transfer_tokens
        ⟨[1, 2], [(1, mkWallet 0 5)], [], [], []⟩ 1 1 3 "reward" =
      TransferResult.error TransferError.self_transfer
        ⟨[1, 2], [(1, mkWallet 0 5)], [], [], []⟩) ∧
    (WalletsRouter.transfer_tokens
        ⟨[1, 2], [(1, mkWallet 0 5)], [], [], []⟩ 1 2 3 "virtual" =
      TransferResult.error TransferError.transfer_restricted
        ⟨[1, 2], [(1, mkWallet 0 5)], [], [], []⟩) ∧
    (WalletsRouter.transfer_tokens
        ⟨[1, 2], [(1, mkWallet 0 5)], [], [], []⟩ 1 2 10 "reward" =
      TransferResult.error TransferError.insufficient_balance
        ⟨[1, 2], [(1, mkWallet 0 5)], [], [], []⟩) :=
  ⟨(C5_transfer_failure_modes ⟨[1, 2], [(1, mkWallet 0 5)], [], [], []⟩
      1 1 3 "reward" (by decide)).1 rfl,
   (C5_transfer_failure_modes ⟨[1, 2], [(1, mkWallet 0 5)], [], [], []⟩
      1 2 3 "virtual" (by decide)).2.1 (by decide) (mkWallet 0 5)
      (by decide) (by decide),
   (C5_transfer_failure_modes ⟨[1, 2], [(1, mkWallet 0 5)], [], [], []⟩
      1 2 10 "reward" (by decide)).2.2 (by decide) (mkWallet 0 5)
      (by decide) rfl (by decide)⟩

/-- C9: a successful transfer of `amount` earned tokens between two distinct
existing wallets debits the sender's earned balance by exactly `amount` and
credits the recipient's earned balance by exactly `amount`, leaves both
purchased balances untouched, and therefore conserves the sum of the two
total balances. -/
theorem C9_transfer_conserves_total (db : DB) (s r : Nat) (amount : Int)
    (sw rcv : Wallet) (hrec : db.users.contains r = true) (hne : r ≠ s)
    (hs : lookupRow db.wallets s = some sw)
    (hr : lookupRow db.wallets r = some rcv)
    (hbal : amount ≤ sw.reward_tokens) :
    (WalletsRouter.transfer_tokens db s r amount "reward").isOk = true ∧
    lookupRow
        (WalletsRouter.transfer_tokens db s r amount "reward").state.wallets s =
      some { sw with reward_tokens := sw.reward_tokens - amount } ∧
    lookupRow
        (WalletsRouter.transfer_tokens db s r amount "reward").state.wallets r =
      some { rcv with reward_tokens := rcv.reward_tokens + amount } ∧
    Wallet.total_balance { sw with reward_tokens := sw.reward_tokens - amount } +
      Wallet.total_balance { rcv with reward_tokens := rcv.reward_tokens + amount } =
      sw.total_balance + rcv.total_balance ∧
    Wallet.virtual_tokens { sw with reward_tokens := sw.reward_tokens - amount } =
      sw.virtual_tokens ∧
    Wallet.virtual_tokens { rcv with reward_tokens := rcv.reward_tokens + amount } =
      rcv.virtual_tokens := by
  have hnlt : ¬ sw.reward_tokens < amount := not_lt.mpr hbal
  have hcontains : ¬ ¬ db.users.contains r = true := fun h => h hrec
  simp only [WalletsRouter.transfer_tokens, hs, hr, if_neg hcontains,
    if_neg hne,
    if_neg (show ¬ ("reward" : String) ≠ "reward" from fun h => h rfl),
    if_neg hnlt, TransferResult.state, TransferResult.isOk]
  refine ⟨trivial, ?_, ?_, ?_, ?_, ?_⟩
  · rw [lookupRow_setRow_other _ r s _ (Ne.symm hne),
      lookupRow_setRow_self _ s _ (by rw [hs]; rfl)]
  · rw [lookupRow_setRow_self _ r _
      (by rw [lookupRow_setRow_other _ s r _ hne, hr]; rfl)]
  · simp only [Wallet.total_balance]
    ring
  · simp
  · simp

/-- Witness for C9: wallet 1 (10 purchased, 5 earned) transfers 3 earned
tokens to wallet 2 (1 purchased, 2 earned). -/
theorem C9_transfer_conserves_total_witness :
    (WalletsRouter.transfer_tokens
        ⟨[1, 2], [(1, mkWallet 10 5), (2, mkWallet 1 2)], [], [], []⟩
        1 2 3 "reward").isOk = true ∧
    lookupRow
        (WalletsRouter.transfer_tokens
          ⟨[1, 2], [(1, mkWallet 10 5), (2, mkWallet 1 2)], [], [], []⟩
          1 2 3 "reward").state.wallets 1 =
      some { mkWallet 10 5 with reward_tokens := (mkWallet 10 5).reward_tokens - 3 } ∧
    lookupRow
        (WalletsRouter.transfer_tokens
          ⟨[1, 2], [(1, mkWallet 10 5), (2, mkWallet 1 2)], [], [], []⟩
          1 2 3 "reward").state.wallets 2 =
      some { mkWallet 1 2 with reward_tokens := (mkWallet 1 2).reward_tokens + 3 } ∧
    Wallet.total_balance
        { mkWallet 10 5 with reward_tokens := (mkWallet 10 5).reward_tokens - 3 } +
      Wallet.total_balance
        { mkWallet 1 2 with reward_tokens := (mkWallet 1 2).reward_tokens + 3 } =
      (mkWallet 10 5).total_balance + (mkWallet 1 2).total_balance ∧
    Wallet.virtual_tokens
        { mkWallet 10 5 with reward_tokens := (mkWallet 10 5).reward_tokens - 3 } =
      (mkWallet 10 5).virtual_tokens ∧
    Wallet.virtual_tokens
        { mkWallet 1 2 with reward_tokens := (mkWallet 1 2).reward_tokens + 3 } =
      (mkWallet 1 2).virtual_tokens :=
  C9_transfer_conserves_total
    ⟨[1, 2], [(1, mkWallet 10 5), (2, mkWallet 1 2)], [], [], []⟩
    1 2 3 (mkWallet 10 5) (mkWallet 1 2)
    (by decide) (by decide) (by decide) (by decide) (by decide)

/-- C1: evaluation of the two gateway callbacks at a purchase transaction
that is ALREADY `completed`.  The claim says replaying the callback is a
no-op, but neither handler inspects the transaction's current status: the
wallet starts at a total balance of 100 and each replay credits the
50-token purchase again, ending at 150. -/
theorem C1_completed_callback_replay_credits_again :
    (lookupRow
        (⟨[1], [(1, mkWallet 100 0)],
          [(0, ⟨1, TransactionType.purchase, TransactionStatus.completed, 50,
            "virtual", some "EP1", none, none, none, some 50, some 100,
            none⟩)], [], []⟩ : DB).wallets 1).map Wallet.total_balance =
      some 100 ∧
    (PaymentsRouter.easypaisa_callback
        ⟨[1], [(1, mkWallet 100 0)],
          [(0, ⟨1, TransactionType.purchase, TransactionStatus.completed, 50,
            "virtual", some "EP1", none, none, none, some 50, some 100,
            none⟩)], [], []⟩ 0 "0000" "EP1").1 = "success" ∧
    (lookupRow
        (PaymentsRouter.easypaisa_callback
          ⟨[1], [(1, mkWallet 100 0)],
            [(0, ⟨1, TransactionType.purchase, TransactionStatus.completed, 50,
              "virtual", some "EP1", none, none, none, some 50, some 100,
              none⟩)], [], []⟩ 0 "0000" "EP1").2.wallets 1).map
        Wallet.total_balance = some 150 ∧
    (lookupRow
        (PaymentsRouter.jazzcash_callback
          ⟨[1], [(1, mkWallet 100 0)],
            [(0, ⟨1, TransactionType.purchase, TransactionStatus.completed, 50,
              "virtual", some "EP1", none, none, none, some 50, some 100,
              none⟩)], [], []⟩ 0 "000" "ok").2.wallets 1).map
        Wallet.total_balance = some 150 := by
  decide

/-- A successful deduction reduces the total balance by exactly the amount,
under either policy. -/
theorem Wallet.deduct_total (w : Wallet) (amount : Int) (urf : Bool)
    (h : amount ≤ w.total_balance) :
    ((w.deduct_tokens amount urf).2).total_balance =
      w.total_balance - amount := by
  have hs : w.has_sufficient_balance amount = true := by
    simp [Wallet.has_sufficient_balance, h]
  cases urf
  · by_cases hv : amount ≤ w.virtual_tokens <;>
      simp [Wallet.deduct_tokens, hs, hv, Wallet.total_balance] <;> omega
  · by_cases hrw : amount ≤ w.reward_tokens <;>
      simp [Wallet.deduct_tokens, hs, hrw, Wallet.total_balance] <;> omega

/-- C2 (amended): completed transactions produced by the wallet service's
credit path (`add_tokens`, covering purchases, tournament rewards and
bonuses — hence also `distribute_rewards`, which credits through it), by its
debit path (`deduct_tokens`, covering tournament entry fees), and by both
legs of the transfer endpoint, all satisfy `balance_after − balance_before =
signed token amount`.  The admin `complete_tournament` reward path and a
stale purchase callback violate the unrestricted claim (see the
counterexample). -/
theorem C2_amended_completed_tx_delta :
    (∀ (db : DB) (user_id : Nat) (amount : Int) (token_type : String)
        (tt : TransactionType),
      tt = TransactionType.purchase ∨ tt = TransactionType.tournament_reward ∨
        tt = TransactionType.bonus →
      tx_snapshot_ok
        (WalletService.add_tokens db user_id amount token_type tt).1.2.2) ∧
    (∀ (db : DB) (user_id : Nat) (amount : Int) (tid : Option Nat) (k : Nat)
        (tx : Transaction),
      (WalletService.deduct_tokens db user_id amount
          TransactionType.tournament_entry tid).1.2 = some (k, tx) →
      tx_snapshot_ok tx) ∧
    (∀ (db : DB) (s r : Nat) (amount : Int) (db' : DB)
        (stx rtx : Transaction),
      WalletsRouter.transfer_tokens db s r amount "reward" =
        TransferResult.ok db' stx rtx →
      tx_snapshot_ok stx ∧ tx_snapshot_ok rtx) := by
  refine ⟨?_, ?_, ?_⟩
  · intro db user_id amount token_type tt htt
    intro _hc
    have hdelta :
        (if token_type = "virtual" then
            ((WalletService.get_or_create_wallet db.wallets user_id).1).add_virtual_tokens amount
          else
            ((WalletService.get_or_create_wallet db.wallets user_id).1).add_reward_tokens amount).total_balance =
          ((WalletService.get_or_create_wallet db.wallets user_id).1).total_balance + amount := by
      split <;>
        simp [Wallet.add_virtual_tokens, Wallet.add_reward_tokens,
          Wallet.total_balance] <;> ring
    rcases htt with h | h | h <;> subst h <;>
      simp [WalletService.add_tokens, tx_balance_delta, signed_token_amount,
        Transaction.mark_completed, hdelta]
  · intro db user_id amount tid k tx h
    cases hlw : lookupRow db.wallets user_id with
    | none => simp [WalletService.deduct_tokens, hlw] at h
    | some w =>
      by_cases hs : amount ≤ w.total_balance
      · rw [WalletService.deduct_tokens_ok db user_id amount
          TransactionType.tournament_entry tid w hlw hs] at h
        simp only [Option.some.injEq, Prod.mk.injEq] at h
        obtain ⟨_hk, htx⟩ := h
        subst htx
        intro _hc
        simp [tx_balance_delta, signed_token_amount,
          Transaction.mark_completed, Wallet.deduct_total w amount false hs]
      · rw [WalletService.deduct_tokens_fail db user_id amount
          TransactionType.tournament_entry tid w hlw hs] at h
        simp at h
  · intro db s r amount db' stx rtx h
    unfold WalletsRouter.transfer_tokens at h
    by_cases h1 : db.users.contains r = true
    · rw [if_neg (fun hh => hh h1)] at h
      by_cases h2 : r = s
      · rw [if_pos h2] at h
        simp at h
      · rw [if_neg h2] at h
        cases hlw : lookupRow db.wallets s with
        | none =>
          simp only [hlw] at h
          exact TransferResult.noConfusion h
        | some sw =>
          simp only [hlw] at h
          rw [if_neg (fun hh : ("reward" : String) ≠ "reward" => hh rfl)] at h
          by_cases h3 : sw.reward_tokens < amount
          · rw [if_pos h3] at h
            simp at h
          · rw [if_neg h3] at h
            cases hlr : lookupRow db.wallets r with
            | none =>
              simp only [hlr, TransferResult.ok.injEq] at h
              obtain ⟨_hdb, hstx, hrtx⟩ := h
              subst hstx
              subst hrtx
              constructor <;> intro _hc <;>
                simp [tx_balance_delta, signed_token_amount,
                  Transaction.mark_completed, Wallet.total_balance,
                  Wallet.new]
            | some rcv =>
              simp only [hlr, TransferResult.ok.injEq] at h
              obtain ⟨_hdb, hstx, hrtx⟩ := h
              subst hstx
              subst hrtx
              constructor <;> intro _hc <;>
                simp [tx_balance_delta, signed_token_amount,
                  Transaction.mark_completed, Wallet.total_balance]
    · rw [if_pos h1] at h
      exact TransferResult.noConfusion h

/-- Witness for C2 (amended): a concrete 500-token purchase credit satisfies
the snapshot invariant. -/
theorem C2_amended_completed_tx_delta_witness :
    tx_snapshot_ok
      (WalletService.add_tokens ⟨[1], [(1, mkWallet 100 0)], [], [], []⟩ 1 500
        "virtual" TransactionType.purchase).1.2.2 :=
  C2_amended_completed_tx_delta.1 ⟨[1], [(1, mkWallet 100 0)], [], [], []⟩
    1 500 "virtual" TransactionType.purchase (Or.inl rfl)

/-- Counterexample for C2 as frozen: (a) the admin `complete_tournament`
endpoint produces a completed 200-token reward transaction whose balance
snapshots are both null, so `balance_after − balance_before` is not the
signed amount; (b) a purchase initiated at balance 100 for 500 tokens,
followed by a 50-token debit and then the gateway success callback, yields a
completed purchase transaction with `balance_before = 100`,
`balance_after = 550`: a delta of 450 ≠ 500. -/
theorem C2_completed_tx_delta_counterexample :
    lookupRow
        (AdminRouter.complete_tournament
          ⟨[1], [(1, mkWallet 0 0)], [],
            [⟨1, 7, RegistrationStatus.confirmed, 50, some 9, none, 0, none⟩],
            [(7, ⟨50, 200, 100, 50, 0, 0, 10, 1, none, none,
              TournamentStatus.active⟩)]⟩
          7 [(Place.first_place, 1)]).2.transactions 0 =
      some ⟨1, TransactionType.tournament_reward, TransactionStatus.completed,
        200, "reward", none, some 7, none, none, none, none, none⟩ ∧
    ¬ tx_snapshot_ok ⟨1, TransactionType.tournament_reward,
        TransactionStatus.completed, 200, "reward", none, some 7, none, none,
        none, none, none⟩ ∧
    lookupRow
        (PaymentsRouter.easypaisa_callback
          (WalletService.deduct_tokens
            (PaymentsRouter.initiate_payment
              ⟨[1], [(1, mkWallet 100 0)], [], [], []⟩ 1 500).2
            1 50 TransactionType.tournament_entry none).2
          0 "0000" "EXT").2.transactions 0 =
      some ⟨1, TransactionType.purchase, TransactionStatus.completed, 500,
        "virtual", some "EXT", none, none, none, some 100, some 550, none⟩ ∧
    ¬ tx_snapshot_ok ⟨1, TransactionType.purchase,
        TransactionStatus.completed, 500, "virtual", some "EXT", none, none,
        none, some 100, some 550, none⟩ := by
  decide

/-- Updating the first row matched by `p` commutes with `find? p` when the
update cannot unmatch the row. -/
theorem find?_updateFirstReg (p : Registration → Bool)
    (f : Registration → Registration) (l : List Registration)
    (hf : ∀ r, p r = true → p (f r) = true) :
    (updateFirstReg p f l).find? p = (l.find? p).map f := by
  induction l with
  | nil => simp [updateFirstReg]
  | cons r rs ih =>
    by_cases hp : p r = true
    · simp [updateFirstReg, hp, List.find?_cons, hf r hp]
    · have hp' : p r = false := by simpa using hp
      simp [updateFirstReg, hp', List.find?_cons, ih]

/-- Equation for `WalletService.add_tokens` crediting the earned class of an
existing wallet. -/
theorem WalletService.add_tokens_reward_ok (db : DB) (user_id : Nat)
    (amount : Int) (tt : TransactionType) (w : Wallet)
    (hw : lookupRow db.wallets user_id = some w) :
    WalletService.add_tokens db user_id amount "reward" tt =
      ((w.add_reward_tokens amount, db.freshTxId,
        Transaction.mark_completed
          { user_id := user_id
            type := tt
            status := TransactionStatus.completed
            token_amount := amount
            token_type := "reward"
            payment_reference := none
            tournament_id := none
            recipient_user_id := none
            sender_user_id := none
            balance_before := some w.total_balance
            balance_after := some (w.add_reward_tokens amount).total_balance
            notes := none }),
       { db with
           wallets := setRow db.wallets user_id (w.add_reward_tokens amount),
           transactions := db.transactions ++ [(db.freshTxId,
             Transaction.mark_completed
               { user_id := user_id
                 type := tt
                 status := TransactionStatus.completed
                 token_amount := amount
                 token_type := "reward"
                 payment_reference := none
                 tournament_id := none
                 recipient_user_id := none
                 sender_user_id := none
                 balance_before := some w.total_balance
                 balance_after := some (w.add_reward_tokens amount).total_balance
                 notes := none })] }) := by
  simp [WalletService.add_tokens, WalletService.get_or_create_wallet, hw]

/-- C8: settling one populated placement with a positive configured reward
through `TournamentService.distribute_rewards` credits exactly `reward`
earned tokens to the winner's wallet, records `position` and `reward_earned`
on the winner's registration together with a link to the freshly inserted
completed reward transaction, and marks the tournament `completed`; an empty
placement list (all placements unfilled) still succeeds and marks the
tournament `completed`. -/
theorem C8_settlement_rewards_winner (db : DB) (tid uid : Nat)
    (pos reward : Int) (t : Tournament) (reg : Registration) (w : Wallet)
    (ht : lookupRow db.tournaments tid = some t)
    (hreg : db.registrations.find? (TournamentService.regOf uid tid) = some reg)
    (hw : lookupRow db.wallets uid = some w)
    (hfresh : lookupRow db.transactions db.freshTxId = none)
    (hpos : 0 < reward) :
    (TournamentService.distribute_rewards db tid [⟨uid, pos, reward⟩]).1 =
      true ∧
    lookupRow (TournamentService.distribute_rewards db tid
        [⟨uid, pos, reward⟩]).2.wallets uid =
      some (w.add_reward_tokens reward) ∧
    (w.add_reward_tokens reward).reward_tokens = w.reward_tokens + reward ∧
    (TournamentService.distribute_rewards db tid
        [⟨uid, pos, reward⟩]).2.registrations.find?
        (TournamentService.regOf uid tid) =
      some { reg.set_result pos reward with
               reward_transaction_id := some db.freshTxId } ∧
    (reg.set_result pos reward).position = some pos ∧
    (reg.set_result pos reward).reward_earned = reward ∧
    lookupRow (TournamentService.distribute_rewards db tid
        [⟨uid, pos, reward⟩]).2.transactions db.freshTxId =
      some (Transaction.mark_completed
        ⟨uid, TransactionType.tournament_reward, TransactionStatus.completed,
          reward, "reward", none, none, none, none, some w.total_balance,
          some (w.add_reward_tokens reward).total_balance, none⟩) ∧
    lookupRow (TournamentService.distribute_rewards db tid
        [⟨uid, pos, reward⟩]).2.tournaments tid =
      some { t with status := TournamentStatus.completed } ∧
    (TournamentService.distribute_rewards db tid []).1 = true ∧
    lookupRow (TournamentService.distribute_rewards db tid
        []).2.tournaments tid =
      some { t with status := TournamentStatus.completed } := by
  have h1 : TournamentService.distributeStep tid db ⟨uid, pos, reward⟩ =
      { db with
          wallets := setRow db.wallets uid (w.add_reward_tokens reward),
          transactions := db.transactions ++ [(db.freshTxId,
            Transaction.mark_completed
              ⟨uid, TransactionType.tournament_reward,
                TransactionStatus.completed, reward, "reward", none, none,
                none, none, some w.total_balance,
                some (w.add_reward_tokens reward).total_balance, none⟩)],
          registrations := updateFirstReg (TournamentService.regOf uid tid)
            (fun r => { r.set_result pos reward with
                          reward_transaction_id := some db.freshTxId })
            db.registrations } := by
    simp [TournamentService.distributeStep, hreg, hpos,
      WalletService.add_tokens_reward_ok db uid reward
        TransactionType.tournament_reward w hw]
  have h2 : TournamentService.distribute_rewards db tid [⟨uid, pos, reward⟩] =
      (true,
       { db with
           wallets := setRow db.wallets uid (w.add_reward_tokens reward),
           transactions := db.transactions ++ [(db.freshTxId,
             Transaction.mark_completed
               ⟨uid, TransactionType.tournament_reward,
                 TransactionStatus.completed, reward, "reward", none, none,
                 none, none, some w.total_balance,
                 some (w.add_reward_tokens reward).total_balance, none⟩)],
           registrations := updateFirstReg (TournamentService.regOf uid tid)
             (fun r => { r.set_result pos reward with
                           reward_transaction_id := some db.freshTxId })
             db.registrations,
           tournaments := setRow db.tournaments tid
             { t with status := TournamentStatus.completed } }) := by
    simp [TournamentService.distribute_rewards, ht, h1]
  have h3 : TournamentService.distribute_rewards db tid [] =
      (true,
       { db with
           tournaments := setRow db.tournaments tid
             { t with status := TournamentStatus.completed } }) := by
    simp [TournamentService.distribute_rewards, ht]
  refine ⟨by rw [h2], ?_, rfl, ?_, rfl, rfl, ?_, ?_, by rw [h3], ?_⟩
  · rw [h2]
    exact lookupRow_setRow_self db.wallets uid _ (by rw [hw]; rfl)
  · rw [h2]
    rw [find?_updateFirstReg _ _ _
      (fun r hr => by
        simpa [TournamentService.regOf, Registration.set_result] using hr),
      hreg]
    rfl
  · rw [h2]
    exact lookupRow_append_new db.transactions db.freshTxId _ hfresh
  · rw [h2]
    exact lookupRow_setRow_self db.tournaments tid _ (by rw [ht]; rfl)
  · rw [h3]
    exact lookupRow_setRow_self db.tournaments tid _ (by rw [ht]; rfl)

/-- Witness for C8, the spec's scenario: a 1st-place reward of 200 credited
to registered user 1 raises the earned balance from 0 to 200, sets
position 1 and reward 200 on the registration, links the completed reward
transaction, and completes the tournament. -/
theorem C8_settlement_rewards_winner_witness :
    (TournamentService.distribute_rewards
        ⟨[1], [(1, mkWallet 0 0)], [],
          [⟨1, 7, RegistrationStatus.confirmed, 50, some 9, none, 0, none⟩],
          [(7, ⟨50, 200, 100, 50, 0, 0, 10, 1, none, none,
            TournamentStatus.active⟩)]⟩ 7 [⟨1, 1, 200⟩]).1 = true ∧
    lookupRow (TournamentService.distribute_rewards
        ⟨[1], [(1, mkWallet 0 0)], [],
          [⟨1, 7, RegistrationStatus.confirmed, 50, some 9, none, 0, none⟩],
          [(7, ⟨50, 200, 100, 50, 0, 0, 10, 1, none, none,
            TournamentStatus.active⟩)]⟩ 7 [⟨1, 1, 200⟩]).2.wallets 1 =
      some ((mkWallet 0 0).add_reward_tokens 200) ∧
    ((mkWallet 0 0).add_reward_tokens 200).reward_tokens =
      (mkWallet 0 0).reward_tokens + 200 ∧
    (TournamentService.distribute_rewards
        ⟨[1], [(1, mkWallet 0 0)], [],
          [⟨1, 7, RegistrationStatus.confirmed, 50, some 9, none, 0, none⟩],
          [(7, ⟨50, 200, 100, 50, 0, 0, 10, 1, none, none,
            TournamentStatus.active⟩)]⟩ 7 [⟨1, 1, 200⟩]).2.registrations.find?
        (TournamentService.regOf 1 7) =
      some { Registration.set_result
               ⟨1, 7, RegistrationStatus.confirmed, 50, some 9, none, 0, none⟩
               1 200 with
             reward_transaction_id :=
               some (DB.freshTxId ⟨[1], [(1, mkWallet 0 0)], [],
                 [⟨1, 7, RegistrationStatus.confirmed, 50, some 9, none, 0,
                   none⟩],
                 [(7, ⟨50, 200, 100, 50, 0, 0, 10, 1, none, none,
                   TournamentStatus.active⟩)]⟩) } ∧
    (Registration.set_result
        ⟨1, 7, RegistrationStatus.confirmed, 50, some 9, none, 0, none⟩
        1 200).position = some 1 ∧
    (Registration.set_result
        ⟨1, 7, RegistrationStatus.confirmed, 50, some 9, none, 0, none⟩
        1 200).reward_earned = 200 ∧
    lookupRow (TournamentService.distribute_rewards
        ⟨[1], [(1, mkWallet 0 0)], [],
          [⟨1, 7, RegistrationStatus.confirmed, 50, some 9, none, 0, none⟩],
          [(7, ⟨50, 200, 100, 50, 0, 0, 10, 1, none, none,
            TournamentStatus.active⟩)]⟩ 7 [⟨1, 1, 200⟩]).2.transactions
        (DB.freshTxId ⟨[1], [(1, mkWallet 0 0)], [],
          [⟨1, 7, RegistrationStatus.confirmed, 50, some 9, none, 0, none⟩],
          [(7, ⟨50, 200, 100, 50, 0, 0, 10, 1, none, none,
            TournamentStatus.active⟩)]⟩) =
      some (Transaction.mark_completed
        ⟨1, TransactionType.tournament_reward, TransactionStatus.completed,
          200, "reward", none, none, none, none,
          some (mkWallet 0 0).total_balance,
          some ((mkWallet 0 0).add_reward_tokens 200).total_balance, none⟩) ∧
    lookupRow (TournamentService.distribute_rewards
        ⟨[1], [(1, mkWallet 0 0)], [],
          [⟨1, 7, RegistrationStatus.confirmed, 50, some 9, none, 0, none⟩],
          [(7, ⟨50, 200, 100, 50, 0, 0, 10, 1, none, none,
            TournamentStatus.active⟩)]⟩ 7 [⟨1, 1, 200⟩]).2.tournaments 7 =
      some { (⟨50, 200, 100, 50, 0, 0, 10, 1, none, none,
               TournamentStatus.active⟩ : Tournament) with
             status := TournamentStatus.completed } ∧
    (TournamentService.distribute_rewards
        ⟨[1], [(1, mkWallet 0 0)], [],
          [⟨1, 7, RegistrationStatus.confirmed, 50, some 9, none, 0, none⟩],
          [(7, ⟨50, 200, 100, 50, 0, 0, 10, 1, none, none,
            TournamentStatus.active⟩)]⟩ 7 []).1 = true ∧
    lookupRow (TournamentService.distribute_rewards
        ⟨[1], [(1, mkWallet 0 0)], [],
          [⟨1, 7, RegistrationStatus.confirmed, 50, some 9, none, 0, none⟩],
          [(7, ⟨50, 200, 100, 50, 0, 0, 10, 1, none, none,
            TournamentStatus.active⟩)]⟩ 7 []).2.tournaments 7 =
      some { (⟨50, 200, 100, 50, 0, 0, 10, 1, none, none,
               TournamentStatus.active⟩ : Tournament) with
             status := TournamentStatus.completed } :=
  C8_settlement_rewards_winner
    ⟨[1], [(1, mkWallet 0 0)], [],
      [⟨1, 7, RegistrationStatus.confirmed, 50, some 9, none, 0, none⟩],
      [(7, ⟨50, 200, 100, 50, 0, 0, 10, 1, none, none,
        TournamentStatus.active⟩)]⟩ 7 1 1 200
    ⟨50, 200, 100, 50, 0, 0, 10, 1, none, none, TournamentStatus.active⟩
    ⟨1, 7, RegistrationStatus.confirmed, 50, some 9, none, 0, none⟩
    (mkWallet 0 0) (by decide) (by decide) (by decide) (by decide) (by decide)

/-- C10: when a settlement entry names a user with no registration row for
the tournament, `distribute_rewards` skips it entirely — the wallets,
transactions and registrations tables come back unchanged — yet still
returns success and marks the tournament `completed`. -/
theorem C10_unregistered_winner_skipped (db : DB) (tid uid : Nat)
    (pos reward : Int) (t : Tournament)
    (ht : lookupRow db.tournaments tid = some t)
    (hnone : db.registrations.find? (TournamentService.regOf uid tid) = none) :
    TournamentService.distribute_rewards db tid [⟨uid, pos, reward⟩] =
      (true,
       { db with
           tournaments := setRow db.tournaments tid
             { t with status := TournamentStatus.completed } }) := by
  simp [TournamentService.distribute_rewards, TournamentService.distributeStep,
    ht, hnone]

/-- Witness for C10: user 2 has no registration for tournament 7; settling
names user 2 for a 200 reward, and the state is unchanged except for the
tournament status. -/
theorem C10_unregistered_winner_skipped_witness :
    TournamentService.distribute_rewards
      ⟨[1, 2], [(2, mkWallet 0 0)], [],
        [⟨1, 7, RegistrationStatus.confirmed, 50, some 9, none, 0, none⟩],
        [(7, ⟨50, 200, 100, 50, 0, 0, 10, 1, none, none,
          TournamentStatus.active⟩)]⟩ 7 [⟨2, 1, 200⟩] =
      (true,
       { (⟨[1, 2], [(2, mkWallet 0 0)], [],
           [⟨1, 7, RegistrationStatus.confirmed, 50, some 9, none, 0, none⟩],
           [(7, ⟨50, 200, 100, 50, 0, 0, 10, 1, none, none,
             TournamentStatus.active⟩)]⟩ : DB) with
         tournaments := setRow
           [(7, ⟨50, 200, 100, 50, 0, 0, 10, 1, none, none,
             TournamentStatus.active⟩)] 7
           { (⟨50, 200, 100, 50, 0, 0, 10, 1, none, none,
               TournamentStatus.active⟩ : Tournament) with
             status := TournamentStatus.completed } }) :=
  C10_unregistered_winner_skipped
    ⟨[1, 2], [(2, mkWallet 0 0)], [],
      [⟨1, 7, RegistrationStatus.confirmed, 50, some 9, none, 0, none⟩],
      [(7, ⟨50, 200, 100, 50, 0, 0, 10, 1, none, none,
        TournamentStatus.active⟩)]⟩ 7 2 1 200
    ⟨50, 200, 100, 50, 0, 0, 10, 1, none, none, TournamentStatus.active⟩
    (by decide) (by decide)

/-- A member of an updated table is the written row or an original member. -/
theorem mem_setRow {α : Type} (rows : List (Nat × α)) (k : Nat) (v : α)
    (q : Nat × α) (hq : q ∈ setRow rows k v) : q = (k, v) ∨ q ∈ rows := by
  simp only [setRow, List.mem_map] at hq
  obtain ⟨p, hp, hpq⟩ := hq
  by_cases hk : p.1 = k
  · rw [if_pos hk] at hpq
    exact Or.inl hpq.symm
  · rw [if_neg hk] at hpq
    exact Or.inr (hpq ▸ hp)

/-- A successful lookup exhibits a member row holding the value. -/
theorem lookupRow_mem {α : Type} (rows : List (Nat × α)) (k : Nat) (w : α)
    (h : lookupRow rows k = some w) : ∃ p, p ∈ rows ∧ p.2 = w := by
  unfold lookupRow at h
  cases hf : rows.find? (fun p => p.1 = k) with
  | none => rw [hf] at h; simp at h
  | some p =>
    rw [hf] at h
    simp only [Option.map_some'] at h
    exact ⟨p, List.mem_of_find?_eq_some hf, Option.some_inj.mp h⟩

/-- Crediting either token class preserves component non-negativity for a
non-negative amount. -/
theorem walletNonneg_add_class (w : Wallet) (a : Int) (ty : String)
    (hw : walletNonneg w) (ha : 0 ≤ a) :
    walletNonneg (if ty = "virtual" then w.add_virtual_tokens a
                  else w.add_reward_tokens a) := by
  obtain ⟨h1, h2⟩ := hw
  split <;> constructor <;>
    simp [Wallet.add_virtual_tokens, Wallet.add_reward_tokens] <;> omega

/-- A purchased-first deduction never drives either component negative. -/
theorem walletNonneg_deduct (w : Wallet) (a : Int) (hw : walletNonneg w) :
    walletNonneg ((w.deduct_tokens a false).2) := by
  obtain ⟨h1, h2⟩ := hw
  by_cases hs : w.has_sufficient_balance a = true
  · have hs' : a ≤ w.virtual_tokens + w.reward_tokens := by
      simpa [Wallet.has_sufficient_balance, Wallet.total_balance] using hs
    by_cases hv : a ≤ w.virtual_tokens
    all_goals constructor <;> simp [Wallet.deduct_tokens, hs, hv] <;> omega
  · have hs2 : w.has_sufficient_balance a = false := by simpa using hs
    simpa [Wallet.deduct_tokens, hs2, walletNonneg] using ⟨h1, h2⟩

/-- The freshly created wallet is non-negative. -/
theorem walletNonneg_new : walletNonneg Wallet.new := by
  constructor <;> simp [Wallet.new]

/-- A credit through the wallet service keeps every wallet non-negative. -/
theorem dbWalletsNonneg_credit (db : DB) (u : Nat) (a : Int) (ty : String)
    (tt : TransactionType) (hdb : dbWalletsNonneg db) (ha : 0 ≤ a) :
    dbWalletsNonneg (WalletService.add_tokens db u a ty tt).2 := by
  intro q hq
  cases hlw : lookupRow db.wallets u with
  | some w =>
    have hw : walletNonneg w := by
      obtain ⟨p, hp, hpw⟩ := lookupRow_mem db.wallets u w hlw
      exact hpw ▸ hdb p hp
    simp only [WalletService.add_tokens, WalletService.get_or_create_wallet,
      hlw] at hq
    rcases mem_setRow _ _ _ _ hq with heq | hq2
    · rw [heq]
      exact walletNonneg_add_class w a ty hw ha
    · exact hdb q hq2
  | none =>
    simp only [WalletService.add_tokens, WalletService.get_or_create_wallet,
      hlw] at hq
    rcases mem_setRow _ _ _ _ hq with heq | hq2
    · rw [heq]
      exact walletNonneg_add_class Wallet.new a ty walletNonneg_new ha
    · rcases List.mem_append.mp hq2 with hq3 | hq4
      · exact hdb q hq3
      · rw [List.mem_singleton.mp hq4]
        exact walletNonneg_new

/-- A debit through the wallet service keeps every wallet non-negative. -/
theorem dbWalletsNonneg_debit (db : DB) (u : Nat) (a : Int)
    (hdb : dbWalletsNonneg db) :
    dbWalletsNonneg (WalletService.deduct_tokens db u a
      TransactionType.tournament_entry none).2 := by
  cases hlw : lookupRow db.wallets u with
  | none =>
    simpa [WalletService.deduct_tokens, hlw] using hdb
  | some w =>
    have hw : walletNonneg w := by
      obtain ⟨p, hp, hpw⟩ := lookupRow_mem db.wallets u w hlw
      exact hpw ▸ hdb p hp
    by_cases hs : a ≤ w.total_balance
    · rw [WalletService.deduct_tokens_ok db u a
        TransactionType.tournament_entry none w hlw hs]
      intro q hq
      rcases mem_setRow _ _ _ _ hq with heq | hq2
      · rw [heq]
        exact walletNonneg_deduct w a hw
      · exact hdb q hq2
    · rw [WalletService.deduct_tokens_fail db u a
        TransactionType.tournament_entry none w hlw hs]
      exact hdb

/-- A transfer through the endpoint keeps every wallet non-negative, for a
non-negative amount. -/
theorem dbWalletsNonneg_transfer (db : DB) (s r : Nat) (a : Int) (ty : String)
    (hdb : dbWalletsNonneg db) (ha : 0 ≤ a) :
    dbWalletsNonneg (WalletsRouter.transfer_tokens db s r a ty).state := by
  unfold WalletsRouter.transfer_tokens
  by_cases h1 : db.users.contains r = true
  · rw [if_neg (fun hh => hh h1)]
    by_cases h2 : r = s
    · rw [if_pos h2]
      exact hdb
    · rw [if_neg h2]
      cases hlw : lookupRow db.wallets s with
      | none => exact hdb
      | some sw =>
        dsimp only
        have hsw : walletNonneg sw := by
          obtain ⟨p, hp, hpw⟩ := lookupRow_mem db.wallets s sw hlw
          exact hpw ▸ hdb p hp
        by_cases hty : ty ≠ "reward"
        · rw [if_pos hty]
          exact hdb
        · rw [if_neg hty]
          by_cases h3 : sw.reward_tokens < a
          · rw [if_pos h3]
            exact hdb
          · rw [if_neg h3]
            cases hlr : lookupRow db.wallets r with
            | some rcv =>
              have hrcv : walletNonneg rcv := by
                obtain ⟨p, hp, hpw⟩ := lookupRow_mem db.wallets r rcv hlr
                exact hpw ▸ hdb p hp
              intro q hq
              simp only [TransferResult.state] at hq
              rcases mem_setRow _ _ _ _ hq with heq | hq2
              · rw [heq]
                exact ⟨hrcv.1, by have h := hrcv.2; dsimp only; omega⟩
              · rcases mem_setRow _ _ _ _ hq2 with heq | hq3
                · rw [heq]
                  exact ⟨hsw.1, by have h := hsw.2; dsimp only; omega⟩
                · exact hdb q hq3
            | none =>
              intro q hq
              simp only [TransferResult.state] at hq
              rcases mem_setRow _ _ _ _ hq with heq | hq2
              · rw [heq]
                exact ⟨walletNonneg_new.1, by have h := walletNonneg_new.2; dsimp only; omega⟩
              · rcases mem_setRow _ _ _ _ hq2 with heq | hq3
                · rw [heq]
                  exact ⟨hsw.1, by have h := hsw.2; dsimp only; omega⟩
                · rcases List.mem_append.mp hq3 with hq4 | hq5
                  · exact hdb q hq4
                  · rw [List.mem_singleton.mp hq5]
                    exact walletNonneg_new
  · rw [if_pos h1]
    exact hdb

/-- One operation with a positive amount preserves the invariant. -/
theorem dbWalletsNonneg_applyOp (db : DB) (op : WalletOp)
    (hdb : dbWalletsNonneg db) (hpos : op.positive) :
    dbWalletsNonneg (applyOp db op) := by
  cases op with
  | credit u a ty =>
    exact dbWalletsNonneg_credit db u a ty TransactionType.purchase hdb
      (le_of_lt hpos)
  | debit u a => exact dbWalletsNonneg_debit db u a hdb
  | transfer s r a ty =>
    exact dbWalletsNonneg_transfer db s r a ty hdb (le_of_lt hpos)

/-- The invariant is preserved along any sequence of positive operations. -/
theorem dbWalletsNonneg_foldl (ops : List WalletOp) :
    ∀ db : DB, dbWalletsNonneg db → (∀ op ∈ ops, op.positive) →
      dbWalletsNonneg (ops.foldl applyOp db) := by
  induction ops with
  | nil =>
    intro db hdb _
    simpa using hdb
  | cons op rest ih =>
    intro db hdb hops
    simp only [List.foldl_cons]
    exact ih _ (dbWalletsNonneg_applyOp db op hdb (hops op (List.mem_cons_self op rest)))
      (fun o ho => hops o (List.mem_cons_of_mem op ho))

/-- C6: starting from any state whose wallets are component-wise
non-negative, every sequence of credit, debit and transfer operations with
positive amounts leaves every wallet with `purchased ≥ 0 ∧ earned ≥ 0`; and a
debit whose amount exceeds the wallet's total balance (the only way the
purchased-first split could go negative) is rejected with the state
untouched and no transaction. -/
theorem C6_wallet_nonneg_invariant (db : DB) (ops : List WalletOp)
    (hdb : dbWalletsNonneg db) (hops : ∀ op ∈ ops, op.positive) :
    dbWalletsNonneg (ops.foldl applyOp db) ∧
    (∀ (user_id : Nat) (amount : Int) (w : Wallet),
      lookupRow db.wallets user_id = some w → w.total_balance < amount →
      WalletService.deduct_tokens db user_id amount
        TransactionType.tournament_entry none = ((false, none), db)) :=
  ⟨dbWalletsNonneg_foldl ops db hdb hops,
   fun user_id amount w hw hlt =>
     WalletService.deduct_tokens_fail db user_id amount
       TransactionType.tournament_entry none w hw (not_le.mpr hlt)⟩

/-- Witness for C6: a concrete credit–debit–transfer history on two wallets
keeps every component non-negative. -/
theorem C6_wallet_nonneg_invariant_witness :
    dbWalletsNonneg
      (List.foldl applyOp
        ⟨[1, 2], [(1, mkWallet 30 20), (2, mkWallet 0 0)], [], [], []⟩
        [WalletOp.credit 1 500 "virtual", WalletOp.debit 1 40,
         WalletOp.transfer 1 2 3 "reward"]) :=
  (C6_wallet_nonneg_invariant
    ⟨[1, 2], [(1, mkWallet 30 20), (2, mkWallet 0 0)], [], [], []⟩
    [WalletOp.credit 1 500 "virtual", WalletOp.debit 1 40,
     WalletOp.transfer 1 2 3 "reward"]
    (by decide) (by decide)).1
